import Mathlib

/-!
Shallow embedding of the bounded-arena memory management and program-loading
pipeline of the executorch hello_world sample:

* `ETMemoryAllocator` — the usage-accounting allocator wrapper from
  src/samples/modules/executorch/hello_world/src/et_memory_allocator.hpp;
* `ProgramLoader` — the load/prepare/execute/read-back pipeline from
  program_loader.cpp / program_loader.h.

`size_t` values are modelled as `Nat` (none of the arithmetic here reaches
2^64 on the inputs considered, except `free_size`, where the wraparound is
modelled explicitly); pointers are modelled as byte offsets from the arena
base address.
-/

/-- `x & (a - 1)`: the low-bits mask the C++ applies with
`size & (alignment - 1)`. For a power-of-two `a` this equals `x % a`. -/
def maskRem (x a : Nat) : Nat := Nat.land x (a - 1)

/-- `x & ~(a - 1)` for a power-of-two `a`: keeps exactly the bits the mask
`a - 1` clears, that is `x - (x & (a - 1))`. The C++ writes
`used_ & ~(alignment - 1)`; the branch using it only runs after the base
allocator succeeded, which requires `alignment` to be a power of two. -/
def maskClear (x a : Nat) : Nat := x - maskRem x a

/-- `a` is a power of two (any power `2 ^ k` with `2 ^ k = a` satisfies
`k < a + 1`, so scanning that range is exhaustive). -/
def isPow2 (a : Nat) : Bool := (List.range (a + 1)).any fun k => a == 2 ^ k

/-- Round `n` up to the next multiple of `a`. -/
def alignUp (n a : Nat) : Nat := ((n + a - 1) / a) * a

/-- Modelled from the spec: the external runtime's base bump allocator
(`executorch::runtime::MemoryAllocator`, a library class not under src/).
Spec section 4.1: it owns a byte region of `capacity` bytes and a cursor;
state is the capacity and the offset one past the previous allocation. -/
structure MemoryAllocator where
  capacity : Nat
  cursor : Nat
deriving DecidableEq

/-- Modelled from the spec: one base `MemoryAllocator::allocate(size,
alignment)` call (spec section 4.1): the alignment must be a power of two,
the cursor is advanced to the next `alignment` boundary and then by `size`,
the pre-advance aligned offset is returned; the call fails, returning
null (`none`) and leaving the state unchanged, when the remaining capacity
cannot satisfy the aligned request. -/
def MemoryAllocator.allocate (s : MemoryAllocator) (size alignment : Nat) :
    Option Nat × MemoryAllocator :=
  if isPow2 alignment then
    let start := alignUp s.cursor alignment
    if start + size ≤ s.capacity then (some start, ⟨s.capacity, start + size⟩)
    else (none, s)
  else (none, s)

/-- State of `ETMemoryAllocator`
(src/samples/modules/executorch/hello_world/src/et_memory_allocator.hpp):
the base-class state plus the `used_` counter. -/
structure ETMemoryAllocator where
  base : MemoryAllocator
  used_ : Nat
deriving DecidableEq

/-- `ETMemoryAllocator(size, base_address)`: fresh base state, `used_(0)`. -/
def ETMemoryAllocator.mk0 (size : Nat) : ETMemoryAllocator := ⟨⟨size, 0⟩, 0⟩

/-- `ETMemoryAllocator::allocate(size, alignment)`: delegates to
`MemoryAllocator::allocate` and, when the result is non-null, updates
`used_`: if `(size & (alignment - 1)) == 0` then `used_ += size`, else
`used_ = (used_ & ~(alignment - 1)) + alignment + size`. -/
def ETMemoryAllocator.allocate (s : ETMemoryAllocator) (size alignment : Nat) :
    Option Nat × ETMemoryAllocator :=
  match MemoryAllocator.allocate s.base size alignment with
  | (none, b) => (none, ⟨b, s.used_⟩)
  | (some p, b) =>
      if maskRem size alignment = 0 then (some p, ⟨b, s.used_ + size⟩)
      else (some p, ⟨b, maskClear s.used_ alignment + alignment + size⟩)

/-- `used_size()`. -/
def ETMemoryAllocator.used_size (s : ETMemoryAllocator) : Nat := s.used_

/-- `free_size()`: `MemoryAllocator::size() - used_`, in `size_t`
(64-bit wraparound) arithmetic. -/
def ETMemoryAllocator.free_size (s : ETMemoryAllocator) : Nat :=
  (s.base.capacity + 2 ^ 64 - s.used_) % 2 ^ 64

/-- Run a sequence of `allocate(size, alignment)` calls, threading the
allocator state and discarding the returned pointers. -/
def runAllocs (s : ETMemoryAllocator) : List (Nat × Nat) → ETMemoryAllocator
  | [] => s
  | c :: rest => runAllocs (ETMemoryAllocator.allocate s c.1 c.2).2 rest

theorem isPow2_spec {a : Nat} (h : isPow2 a = true) : ∃ k, a = 2 ^ k := by
  simp only [isPow2, List.any_eq_true, List.mem_range, beq_iff_eq] at h
  exact ⟨h.choose, h.choose_spec.2⟩

theorem maskRem_eq_mod {a : Nat} (x : Nat) (h : isPow2 a = true) :
    maskRem x a = x % a := by
  obtain ⟨k, rfl⟩ := isPow2_spec h
  exact Nat.and_pow_two_sub_one_eq_mod x k

theorem maskClear_eq_div_mul {a : Nat} (x : Nat) (h : isPow2 a = true) :
    maskClear x a = a * (x / a) := by
  have hdm := Nat.div_add_mod x a
  rw [maskClear, maskRem_eq_mod x h]
  omega

/-- A successful `ETMemoryAllocator::allocate` implies the base allocator
accepted the request, so the alignment is a power of two. -/
theorem allocate_some_isPow2 (s : ETMemoryAllocator) (size alignment p : Nat)
    (s' : ETMemoryAllocator)
    (h : ETMemoryAllocator.allocate s size alignment = (some p, s')) :
    isPow2 alignment = true := by
  by_contra hcon
  rw [ETMemoryAllocator.allocate, MemoryAllocator.allocate] at h
  rw [if_neg hcon] at h
  simp at h

/-- C1 (amended): on every successful `allocate(size, alignment)` call, if
`size` is a multiple of `alignment` the used counter increases by exactly
`size`; otherwise the used counter is rounded DOWN to the alignment
boundary and then a full alignment unit plus `size` is added. -/
theorem C1_used_accounting (s : ETMemoryAllocator) (size alignment p : Nat)
    (s' : ETMemoryAllocator)
    (h : ETMemoryAllocator.allocate s size alignment = (some p, s')) :
    (size % alignment = 0 → s'.used_size = s.used_size + size) ∧
    (size % alignment ≠ 0 →
      s'.used_size = alignment * (s.used_size / alignment) + alignment + size) := by
  have hp : isPow2 alignment = true := allocate_some_isPow2 s size alignment p s' h
  rw [ETMemoryAllocator.allocate] at h
  rcases hM : MemoryAllocator.allocate s.base size alignment with ⟨r, b⟩
  rw [hM] at h
  cases r with
  | none => simp at h
  | some q =>
      by_cases hz : size % alignment = 0
      · refine ⟨fun _ => ?_, fun hc => absurd hz hc⟩
        simp [maskRem_eq_mod size hp, hz] at h
        cases h.2
        simp [ETMemoryAllocator.used_size]
      · refine ⟨fun hc => absurd hc hz, fun _ => ?_⟩
        simp [maskRem_eq_mod size hp, hz] at h
        cases h.2
        simp [ETMemoryAllocator.used_size, maskClear_eq_div_mul s.used_ hp]

theorem C1_used_accounting_witness :
    (5 % 4 ≠ 0) ∧
    ((ETMemoryAllocator.mk0 100).allocate 5 4).2.used_size =
      4 * ((ETMemoryAllocator.mk0 100).used_size / 4) + 4 + 5 :=
  ⟨by decide,
    (C1_used_accounting (ETMemoryAllocator.mk0 100) 5 4 0
      ((ETMemoryAllocator.mk0 100).allocate 5 4).2 (by decide)).2 (by decide)⟩

/-- C1 counterexample: starting from a fresh allocator of capacity 100,
`allocate(5, 4)` succeeds and leaves `used_size = 9` (not a multiple of 4);
a second `allocate(5, 4)` succeeds, and the code sets `used_size = 17`
(round 9 DOWN to 8, plus 4, plus 5), while the claim as stated (round 9 UP
to 12, plus 4, plus 5) predicts 21. -/
theorem C1_counterexample :
    ((runAllocs (ETMemoryAllocator.mk0 100) [(5, 4)]).allocate 5 4).1 = some 8 ∧
    (runAllocs (ETMemoryAllocator.mk0 100) [(5, 4)]).used_size = 9 ∧
    (5 % 4 ≠ 0) ∧
    ((runAllocs (ETMemoryAllocator.mk0 100) [(5, 4)]).allocate 5 4).2.used_size = 17 ∧
    alignUp (runAllocs (ETMemoryAllocator.mk0 100) [(5, 4)]).used_size 4 + 4 + 5 = 21 := by
  decide

/-- C2: evaluating the code on an allocator of capacity 12 with the calls
`allocate(5, 4)` then `allocate(3, 4)`: both calls succeed at the base
allocator (end offsets 5 and 11, within capacity), yet after the second
call the used counter reads 15, exceeding the capacity 12 — the claimed
invariant `used_size() ≤ C` fails on the code. -/
theorem C2_used_exceeds_capacity :
    ((ETMemoryAllocator.mk0 12).allocate 5 4).1 = some 0 ∧
    ((runAllocs (ETMemoryAllocator.mk0 12) [(5, 4)]).allocate 3 4).1 = some 8 ∧
    (runAllocs (ETMemoryAllocator.mk0 12) [(5, 4), (3, 4)]).used_size = 15 ∧
    ¬ (runAllocs (ETMemoryAllocator.mk0 12) [(5, 4), (3, 4)]).used_size ≤ 12 := by
  decide

/-- C3: an `allocate` call on which the base allocator returns null leaves
`used_size()` unchanged. -/
theorem C3_failed_allocate_preserves_used (s : ETMemoryAllocator)
    (size alignment : Nat)
    (h : (ETMemoryAllocator.allocate s size alignment).1 = none) :
    (ETMemoryAllocator.allocate s size alignment).2.used_size = s.used_size := by
  rcases hM : MemoryAllocator.allocate s.base size alignment with ⟨r, b⟩
  rw [ETMemoryAllocator.allocate, hM] at h
  rw [ETMemoryAllocator.allocate, hM]
  cases r with
  | none => rfl
  | some q =>
      by_cases hz : maskRem size alignment = 0
      · simp [hz] at h
      · simp [hz] at h

theorem C3_failed_allocate_preserves_used_witness :
    ((ETMemoryAllocator.mk0 4).allocate 10 4).1 = none ∧
    ((ETMemoryAllocator.mk0 4).allocate 10 4).2.used_size =
      (ETMemoryAllocator.mk0 4).used_size :=
  ⟨by decide,
    C3_failed_allocate_preserves_used (ETMemoryAllocator.mk0 4) 10 4 (by decide)⟩

/-- Status codes of the external runtime (`executorch::runtime::Error`);
only the codes the loader itself can produce are modelled. -/
inductive Error where
  | Ok
  | InvalidState
  | InvalidArgument
  | MemoryAllocationFailed
deriving DecidableEq

/-- `CONFIG_EXECUTORCH_METHOD_ALLOCATOR_POOL_SIZE` default: 16 KiB. -/
def METHOD_ALLOCATOR_POOL_SIZE : Nat := 16 * 1024

/-- `CONFIG_EXECUTORCH_TEMP_ALLOCATOR_POOL_SIZE` default: 2 KiB. -/
def TEMP_ALLOCATOR_POOL_SIZE : Nat := 2 * 1024

/-- `kDefaultAlignment` of the external base allocator:
`alignof(max_align_t)`, 8 on the 32-bit targets of this sample (no claim
depends on the value). `loadProgram` allocates the planned buffers through
the one-argument `allocate(buffer_size)`, which uses this default. -/
def kDefaultAlignment : Nat := 8

/-- Modelled from the spec (section 6 external contract): the metadata the
external runtime declares for one input tensor — shape sizes, dimension
order and expected byte length (`TensorInfo::sizes/dim_order/nbytes`). -/
structure TensorInfo where
  sizes : List Nat
  dim_order : List Nat
  nbytes : Nat
deriving DecidableEq

/-- Modelled from the spec (sections 2, 6 and 8): the observable behaviour
of the fixed embedded model artifact (`model_pte`) as the external runtime
reports it — the per-input tensor metadata, the declared planned-buffer
byte sizes, whether output slot 0 is tagged as a tensor, and the data of
the output tensor produced by executing the method (parse, metadata query,
method load and execution succeed on this fixed valid artifact, per the
section 8 end-to-end scenario). Float values are opaque bit patterns, so
the elements are modelled as `Nat`. -/
structure ModelMeta where
  inputMeta : List TensorInfo
  plannedSizes : List Nat
  outputIsTensor : Bool
  outputData : List Nat
deriving DecidableEq

/-- One bound input slot: the shape and dimension-order metadata copied
into the slot-indexed static storage (`sizes_storage`,
`dim_order_storage`) plus the caller data the tensor view bound via
`Method::set_input` points at. -/
structure BoundSlot where
  sizes : List Nat
  dim_order : List Nat
  data : List Nat
deriving DecidableEq

/-- State of the `ProgramLoader` singleton (program_loader.h): the
initialization flag, the two accounting allocators (null, i.e. `none`,
until initialization), whether `method_` holds a successfully loaded
method (the `isLoaded()` predicate `method_ != nullptr && method_->ok()`),
the planned spans as (offset, length) pairs, the two static input slots,
and a count of `Method::execute` calls (so that a claim can state that a
path performs no execution). -/
structure ProgramLoader where
  initialized_ : Bool
  method_allocator_ : Option ETMemoryAllocator
  temp_allocator_ : Option ETMemoryAllocator
  methodLoaded : Bool
  planned_spans_ : List (Nat × Nat)
  slot0 : Option BoundSlot
  slot1 : Option BoundSlot
  execCount : Nat
deriving DecidableEq

/-- The `ProgramLoader()` constructor: minimal, not initialized, no
method, no allocators. -/
def ProgramLoader.mk0 : ProgramLoader :=
  ⟨false, none, none, false, [], none, none, 0⟩

/-- `isLoaded()`: whether `method_` holds a successfully loaded method. -/
def ProgramLoader.isLoaded (s : ProgramLoader) : Bool := s.methodLoaded

/-- `ProgramLoader::initialize()`: if already initialized, return at once;
otherwise bootstrap the runtime and construct the method and temp
accounting allocators over the statically sized backing pools. -/
def ProgramLoader.initialize (s : ProgramLoader) : ProgramLoader :=
  if s.initialized_ then s
  else
    { s with
      initialized_ := true
      method_allocator_ := some (ETMemoryAllocator.mk0 METHOD_ALLOCATOR_POOL_SIZE)
      temp_allocator_ := some (ETMemoryAllocator.mk0 TEMP_ALLOCATOR_POOL_SIZE) }

/-- The planned-buffer loop of `loadProgram` (part_000 lines 249-267): for
each declared buffer size in order, allocate it from the method allocator
with the default alignment and append the (offset, size) span; on a null
result abort with `MemoryAllocationFailed`, keeping the spans pushed so
far and the allocator consumption of the attempt. -/
def allocPlannedBuffers (a : ETMemoryAllocator) (spans : List (Nat × Nat)) :
    List Nat → Option Error × ETMemoryAllocator × List (Nat × Nat)
  | [] => (none, a, spans)
  | sz :: rest =>
      match ETMemoryAllocator.allocate a sz kDefaultAlignment with
      | (none, a1) => (some Error.MemoryAllocationFailed, a1, spans)
      | (some p, a1) => allocPlannedBuffers a1 (spans ++ [(p, sz)]) rest

/-- `ProgramLoader::loadProgram()`: fails with `InvalidState` unless
initialized (the allocator being null is unreachable when initialized and
is modelled the same way); wraps and parses the embedded model and queries
the method metadata (succeeding on the fixed valid artifact, spec section
8); clears `planned_buffers_` and `planned_spans_` (the loop starts from
the empty list); allocates every declared planned buffer from the method
allocator, aborting with the loop's error on failure while keeping its
partial effects; then assembles the hierarchical planned arena and memory
manager and loads the method "forward" (succeeding on the fixed
artifact), after which `isLoaded()` holds. -/
def ProgramLoader.loadProgram (mm : ModelMeta) (s : ProgramLoader) :
    Error × ProgramLoader :=
  if !s.initialized_ then (Error.InvalidState, s)
  else
    match s.method_allocator_ with
    | none => (Error.InvalidState, s)
    | some a =>
        match allocPlannedBuffers a [] mm.plannedSizes with
        | (some e, a1, spans) =>
            (e, { s with method_allocator_ := some a1, planned_spans_ := spans })
        | (none, a1, spans) =>
            (Error.Ok,
              { s with
                method_allocator_ := some a1
                planned_spans_ := spans
                methodLoaded := true })

/-- `ProgramLoader::createInputTensor(data, size, input_index)`: fails with
`InvalidState` unless `isLoaded()`; queries
`method_meta().input_tensor_meta(input_index)` (modelled from the external
contract: the query fails with `InvalidArgument` when the index is outside
the model's declared inputs); fails with `InvalidArgument` when
`size * sizeof(float)` differs from the declared byte length, and then
when `input_index >= 2`; otherwise copies the metadata into the
slot-indexed static storage, overwriting the prior copy, builds the tensor
view over the caller's data and binds it with `Method::set_input` (which
succeeds for a well-formed bound tensor). `sizeof(float)` is 4. -/
def ProgramLoader.createInputTensor (mm : ModelMeta) (s : ProgramLoader)
    (data : List Nat) (size input_index : Nat) : Error × ProgramLoader :=
  if !s.isLoaded then (Error.InvalidState, s)
  else
    match mm.inputMeta[input_index]? with
    | none => (Error.InvalidArgument, s)
    | some meta =>
        if size * 4 ≠ meta.nbytes then (Error.InvalidArgument, s)
        else if 2 ≤ input_index then (Error.InvalidArgument, s)
        else if input_index = 0 then
          (Error.Ok, { s with slot0 := some ⟨meta.sizes, meta.dim_order, data⟩ })
        else
          (Error.Ok, { s with slot1 := some ⟨meta.sizes, meta.dim_order, data⟩ })

/-- `ProgramLoader::runInference(input1, input2, input_size, output,
output_size)`: fails with `InvalidState` unless `isLoaded()`; binds slot 0
to `input1` and slot 1 to `input2` through `createInputTensor`, returning
the first failure unchanged; executes the method (counted; execution of
the fixed model succeeds, spec section 8); reads output slot 0 and
requires it to be tensor-tagged, else `InvalidArgument`; requires
`output_size` to be at least the output element count, else
`InvalidArgument` before any copy; finally `memcpy`s exactly
`expected_elements` elements into the start of the caller's output
buffer. Returns the status, the loader state and the caller's output
buffer after the call. -/
def ProgramLoader.runInference (mm : ModelMeta) (s : ProgramLoader)
    (input1 input2 : List Nat) (input_size : Nat)
    (output : List Nat) (output_size : Nat) :
    Error × ProgramLoader × List Nat :=
  if !s.isLoaded then (Error.InvalidState, s, output)
  else
    let r1 := ProgramLoader.createInputTensor mm s input1 input_size 0
    if r1.1 ≠ Error.Ok then (r1.1, r1.2, output)
    else
      let r2 := ProgramLoader.createInputTensor mm r1.2 input2 input_size 1
      if r2.1 ≠ Error.Ok then (r2.1, r2.2, output)
      else
        let s3 := { r2.2 with execCount := r2.2.execCount + 1 }
        if !mm.outputIsTensor then (Error.InvalidArgument, s3, output)
        else
          let expected_elements := mm.outputData.length
          if output_size < expected_elements then (Error.InvalidArgument, s3, output)
          else
            (Error.Ok, s3,
              mm.outputData.take expected_elements ++ output.drop expected_elements)

/-- The metadata of the bundled two-input addition model used as a concrete
test fixture: two 1-element float inputs of 4 bytes, one planned buffer of
16 bytes, a tensor-tagged 1-element output. -/
def addModelMeta : ModelMeta :=
  ⟨[⟨[1], [0], 4⟩, ⟨[1], [0], 4⟩], [16], true, [5]⟩

/-- A loader on which `initialize()` and then `loadProgram()` have run. -/
def loadedLoader : ProgramLoader :=
  ( ProgramLoader.loadProgram addModelMeta ( ProgramLoader.initialize ProgramLoader.mk0)).2

theorem createInputTensor_mismatch (mm : ModelMeta) (s : ProgramLoader)
    (data : List Nat) (size idx : Nat) (meta : TensorInfo)
    (hl : ProgramLoader.isLoaded s = true)
    (hm : mm.inputMeta[idx]? = some meta)
    (hne : size * 4 ≠ meta.nbytes) :
    ProgramLoader.createInputTensor mm s data size idx =
      (Error.InvalidArgument, s) := by
  simp [ProgramLoader.createInputTensor, hl, hm, hne]

/-- A successful input bind: the result state differs from the input state
only in the bound slot, so the readiness predicate, the execution counter
and both allocators are preserved. -/
theorem createInputTensor_ok_effects (mm : ModelMeta) (s : ProgramLoader)
    (data : List Nat) (size idx : Nat) (meta : TensorInfo)
    (hl : ProgramLoader.isLoaded s = true)
    (hm : mm.inputMeta[idx]? = some meta)
    (heq : size * 4 = meta.nbytes) (hidx : idx < 2) :
    ∃ s1, ProgramLoader.createInputTensor mm s data size idx = (Error.Ok, s1) ∧
      ProgramLoader.isLoaded s1 = ProgramLoader.isLoaded s ∧
      s1.execCount = s.execCount ∧
      s1.method_allocator_ = s.method_allocator_ ∧
      s1.temp_allocator_ = s.temp_allocator_ := by
  rcases idx with _ | idx1
  · refine ⟨{ s with slot0 := some ⟨meta.sizes, meta.dim_order, data⟩ }, ?_, rfl, rfl, rfl, rfl⟩
    simp [ProgramLoader.createInputTensor, hl, hm, heq]
  · rcases idx1 with _ | idx2
    · refine ⟨{ s with slot1 := some ⟨meta.sizes, meta.dim_order, data⟩ }, ?_, rfl, rfl, rfl, rfl⟩
      simp [ProgramLoader.createInputTensor, hl, hm, heq]
    · exact absurd hidx (by omega)

/-- C4: with a loaded method, `createInputTensor` with `input_index >= 2`
returns `InvalidArgument` and leaves the whole loader state — in
particular the used counters of both accounting allocators — unchanged. -/
theorem C4_createInputTensor_index_ge_two (mm : ModelMeta) (s : ProgramLoader)
    (data : List Nat) (size input_index : Nat)
    (hl : ProgramLoader.isLoaded s = true) (hi : 2 ≤ input_index) :
    ProgramLoader.createInputTensor mm s data size input_index =
      (Error.InvalidArgument, s) := by
  rcases hMeta : mm.inputMeta[input_index]? with _ | meta
  · simp [ProgramLoader.createInputTensor, hl, hMeta]
  · by_cases hsz : size * 4 = meta.nbytes
    · simp [ProgramLoader.createInputTensor, hl, hMeta, hsz, hi]
    · simp [ProgramLoader.createInputTensor, hl, hMeta, hsz]

theorem C4_createInputTensor_index_ge_two_witness :
    ProgramLoader.isLoaded loadedLoader = true ∧ 2 ≤ 2 ∧
    ProgramLoader.createInputTensor addModelMeta loadedLoader [7] 1 2 =
      (Error.InvalidArgument, loadedLoader) :=
  ⟨by decide, by decide,
    C4_createInputTensor_index_ge_two addModelMeta loadedLoader [7] 1 2
      (by decide) (by decide)⟩

/-- C5: with a loaded method, when the declared input byte length of slot 0
or of slot 1 differs from `input_size * sizeof(float)`, `runInference`
returns `InvalidArgument`, does not execute the method, and writes nothing
to the caller's output buffer. -/
theorem C5_runInference_input_size_mismatch (mm : ModelMeta) (s : ProgramLoader)
    (input1 input2 output : List Nat) (input_size output_size : Nat)
    (m0 m1 : TensorInfo)
    (hl : ProgramLoader.isLoaded s = true)
    (h0 : mm.inputMeta[0]? = some m0) (h1 : mm.inputMeta[1]? = some m1)
    (hmis : input_size * 4 ≠ m0.nbytes ∨ input_size * 4 ≠ m1.nbytes) :
    (ProgramLoader.runInference mm s input1 input2 input_size output output_size).1 =
        Error.InvalidArgument ∧
    (ProgramLoader.runInference mm s input1 input2 input_size output
        output_size).2.1.execCount = s.execCount ∧
    (ProgramLoader.runInference mm s input1 input2 input_size output
        output_size).2.2 = output := by
  by_cases hb0 : input_size * 4 = m0.nbytes
  · have hb1 : input_size * 4 ≠ m1.nbytes := by
      rcases hmis with hc | hc
      · exact absurd hb0 hc
      · exact hc
    obtain ⟨s1, hs1, hsl, hsc, _, _⟩ :=
      createInputTensor_ok_effects mm s input1 input_size 0 m0 hl h0 hb0 (by omega)
    have hr2 := createInputTensor_mismatch mm s1 input2 input_size 1 m1
      (hsl.trans hl) h1 hb1
    simp [ProgramLoader.runInference, hl, hs1, hr2, hsc]
  · have hr1 := createInputTensor_mismatch mm s input1 input_size 0 m0 hl h0 hb0
    simp [ProgramLoader.runInference, hl, hr1]

theorem C5_runInference_input_size_mismatch_witness :
    ProgramLoader.isLoaded loadedLoader = true ∧
    (2 * 4 ≠ (4 : Nat) ∨ 2 * 4 ≠ (4 : Nat)) ∧
    (ProgramLoader.runInference addModelMeta loadedLoader [2, 2] [3, 3] 2
        [9, 9] 2).1 = Error.InvalidArgument ∧
    (ProgramLoader.runInference addModelMeta loadedLoader [2, 2] [3, 3] 2
        [9, 9] 2).2.1.execCount = loadedLoader.execCount ∧
    (ProgramLoader.runInference addModelMeta loadedLoader [2, 2] [3, 3] 2
        [9, 9] 2).2.2 = [9, 9] :=
  ⟨by decide, Or.inl (by decide),
    C5_runInference_input_size_mismatch addModelMeta loadedLoader [2, 2] [3, 3]
      [9, 9] 2 2 ⟨[1], [0], 4⟩ ⟨[1], [0], 4⟩ (by decide) (by decide) (by decide)
      (Or.inl (by decide))⟩

/-- C6: with a loaded method, matching input sizes and a tensor-tagged
output of `N` elements, a call with `output_size < N` returns
`InvalidArgument` and the caller's output buffer is returned completely
unmodified — the size check precedes the copy. -/
theorem C6_runInference_output_too_small (mm : ModelMeta) (s : ProgramLoader)
    (input1 input2 output : List Nat) (input_size output_size : Nat)
    (m0 m1 : TensorInfo)
    (hl : ProgramLoader.isLoaded s = true)
    (h0 : mm.inputMeta[0]? = some m0) (h1 : mm.inputMeta[1]? = some m1)
    (hb0 : input_size * 4 = m0.nbytes) (hb1 : input_size * 4 = m1.nbytes)
    (ht : mm.outputIsTensor = true)
    (hos : output_size < mm.outputData.length) :
    (ProgramLoader.runInference mm s input1 input2 input_size output output_size).1 =
        Error.InvalidArgument ∧
    (ProgramLoader.runInference mm s input1 input2 input_size output
        output_size).2.2 = output := by
  obtain ⟨s1, hs1, hsl1, _, _, _⟩ :=
    createInputTensor_ok_effects mm s input1 input_size 0 m0 hl h0 hb0 (by omega)
  obtain ⟨s2, hs2, _, _, _, _⟩ :=
    createInputTensor_ok_effects mm s1 input2 input_size 1 m1
      (hsl1.trans hl) h1 hb1 (by omega)
  simp [ProgramLoader.runInference, hl, hs1, hs2, ht, hos]

theorem C6_runInference_output_too_small_witness :
    ProgramLoader.isLoaded loadedLoader = true ∧ (0 : Nat) < 1 ∧
    (ProgramLoader.runInference addModelMeta loadedLoader [2] [3] 1 [9, 9] 0).1 =
        Error.InvalidArgument ∧
    (ProgramLoader.runInference addModelMeta loadedLoader [2] [3] 1 [9, 9] 0).2.2 =
        [9, 9] :=
  ⟨by decide, by decide,
    C6_runInference_output_too_small addModelMeta loadedLoader [2] [3] [9, 9] 1 0
      ⟨[1], [0], 4⟩ ⟨[1], [0], 4⟩ (by decide) (by decide) (by decide) (by decide)
      (by decide) (by decide) (by decide)⟩

/-- C7: with a loaded method, matching input sizes, a tensor-tagged output
of `N` elements and `output_size >= N`, the call succeeds, exactly the
first `N` elements of the caller's output buffer are overwritten with the
output tensor's data, and every element at index `>= N` is unchanged. -/
theorem C7_runInference_output_copy (mm : ModelMeta) (s : ProgramLoader)
    (input1 input2 output : List Nat) (input_size output_size : Nat)
    (m0 m1 : TensorInfo)
    (hl : ProgramLoader.isLoaded s = true)
    (h0 : mm.inputMeta[0]? = some m0) (h1 : mm.inputMeta[1]? = some m1)
    (hb0 : input_size * 4 = m0.nbytes) (hb1 : input_size * 4 = m1.nbytes)
    (ht : mm.outputIsTensor = true)
    (hos : mm.outputData.length ≤ output_size) :
    (ProgramLoader.runInference mm s input1 input2 input_size output output_size).1 =
        Error.Ok ∧
    (∀ i, i < mm.outputData.length →
      (ProgramLoader.runInference mm s input1 input2 input_size output
          output_size).2.2[i]? = mm.outputData[i]?) ∧
    (∀ i, mm.outputData.length ≤ i →
      (ProgramLoader.runInference mm s input1 input2 input_size output
          output_size).2.2[i]? = output[i]?) := by
  obtain ⟨s1, hs1, hsl1, _, _, _⟩ :=
    createInputTensor_ok_effects mm s input1 input_size 0 m0 hl h0 hb0 (by omega)
  obtain ⟨s2, hs2, _, _, _, _⟩ :=
    createInputTensor_ok_effects mm s1 input2 input_size 1 m1
      (hsl1.trans hl) h1 hb1 (by omega)
  have hnl : ¬ output_size < mm.outputData.length := by omega
  have hres : ProgramLoader.runInference mm s input1 input2 input_size output
      output_size =
      (Error.Ok, { s2 with execCount := s2.execCount + 1 },
        mm.outputData ++ List.drop mm.outputData.length output) := by
    simp [ProgramLoader.runInference, hl, hs1, hs2, ht, hnl, List.take_length]
  refine ⟨by rw [hres], ?_, ?_⟩
  · intro i hi
    rw [hres, List.getElem?_append, if_pos hi]
  · intro i hi
    rw [hres, List.getElem?_append, if_neg (by omega), List.getElem?_drop]
    congr 1
    omega

theorem C7_runInference_output_copy_witness :
    (ProgramLoader.runInference addModelMeta loadedLoader [2] [3] 1 [9, 9] 2).1 =
        Error.Ok ∧
    (ProgramLoader.runInference addModelMeta loadedLoader [2] [3] 1 [9, 9] 2).2.2[0]? =
        addModelMeta.outputData[0]? ∧
    (ProgramLoader.runInference addModelMeta loadedLoader [2] [3] 1 [9, 9] 2).2.2[1]? =
        ([9, 9] : List Nat)[1]? :=
  ⟨(C7_runInference_output_copy addModelMeta loadedLoader [2] [3] [9, 9] 1 2
      ⟨[1], [0], 4⟩ ⟨[1], [0], 4⟩ (by decide) (by decide) (by decide) (by decide)
      (by decide) (by decide) (by decide)).1,
   (C7_runInference_output_copy addModelMeta loadedLoader [2] [3] [9, 9] 1 2
      ⟨[1], [0], 4⟩ ⟨[1], [0], 4⟩ (by decide) (by decide) (by decide) (by decide)
      (by decide) (by decide) (by decide)).2.1 0 (by decide),
   (C7_runInference_output_copy addModelMeta loadedLoader [2] [3] [9, 9] 1 2
      ⟨[1], [0], 4⟩ ⟨[1], [0], 4⟩ (by decide) (by decide) (by decide) (by decide)
      (by decide) (by decide) (by decide)).2.2 1 (by decide)⟩

/-- C8: `initialize()` is idempotent — a second call on an initialized
loader returns at once, so two consecutive calls produce exactly the
same loader state (allocators included) as one call. -/
theorem C8_initialize_idempotent (s : ProgramLoader) :
    ProgramLoader.initialize ( ProgramLoader.initialize s) =
      ProgramLoader.initialize s := by
  by_cases h : s.initialized_
  · simp [ ProgramLoader.initialize, h]
  · simp [ ProgramLoader.initialize, h]

/-- C9: while no method has been successfully loaded, `runInference`
returns `InvalidState` and returns with the loader state — allocators
included — and the caller's output buffer both unchanged. -/
theorem C9_runInference_before_load (mm : ModelMeta) (s : ProgramLoader)
    (input1 input2 output : List Nat) (input_size output_size : Nat)
    (hn : ProgramLoader.isLoaded s = false) :
    ProgramLoader.runInference mm s input1 input2 input_size output output_size =
      (Error.InvalidState, s, output) := by
  simp [ProgramLoader.runInference, hn]

theorem C9_runInference_before_load_witness :
    ProgramLoader.isLoaded ProgramLoader.mk0 = false ∧
    ProgramLoader.runInference addModelMeta ProgramLoader.mk0 [2] [3] 1 [9] 1 =
      (Error.InvalidState, ProgramLoader.mk0, [9]) :=
  ⟨by decide,
    C9_runInference_before_load addModelMeta ProgramLoader.mk0 [2] [3] [9] 1 1
      (by decide)⟩

/-- The planned-buffer loop can only abort with `MemoryAllocationFailed`. -/
theorem allocPlannedBuffers_err (sizes : List Nat) :
    ∀ a spans e a1 spans1,
      allocPlannedBuffers a spans sizes = (some e, a1, spans1) →
      e = Error.MemoryAllocationFailed := by
  induction sizes with
  | nil =>
      intro a spans e a1 spans1 h
      simp [allocPlannedBuffers] at h
  | cons sz rest ih =>
      intro a spans e a1 spans1 h
      rw [allocPlannedBuffers] at h
      rcases hA : ETMemoryAllocator.allocate a sz kDefaultAlignment with ⟨r, a2⟩
      rw [hA] at h
      cases r with
      | none =>
          simp at h
          exact h.1.symm
      | some p => exact ih a2 (spans ++ [(p, sz)]) e a1 spans1 h

/-- When the planned-buffer loop completes, the lengths of the spans it
appended are exactly the requested sizes, in order. -/
theorem allocPlannedBuffers_ok_sizes (sizes : List Nat) :
    ∀ a spans a1 spans1,
      allocPlannedBuffers a spans sizes = (none, a1, spans1) →
      List.map Prod.snd spans1 = List.map Prod.snd spans ++ sizes := by
  induction sizes with
  | nil =>
      intro a spans a1 spans1 h
      simp [allocPlannedBuffers] at h
      simp [h.2.symm]
  | cons sz rest ih =>
      intro a spans a1 spans1 h
      rw [allocPlannedBuffers] at h
      rcases hA : ETMemoryAllocator.allocate a sz kDefaultAlignment with ⟨r, a2⟩
      rw [hA] at h
      cases r with
      | none => simp at h
      | some p =>
          have hrec := ih a2 (spans ++ [(p, sz)]) a1 spans1 h
          simpa using hrec

/-- C10: after every successful `loadProgram` call — also a repeated call
on an already-loaded instance — the planned span list holds exactly one
entry per declared planned buffer, the span at position `id` has length
equal to the declared size for buffer `id`, and nothing from a prior load
remains in the list (the list is rebuilt from empty on each call). -/
theorem C10_loadProgram_planned_spans (mm : ModelMeta) (s s1 : ProgramLoader)
    (h : ProgramLoader.loadProgram mm s = (Error.Ok, s1)) :
    List.map Prod.snd s1.planned_spans_ = mm.plannedSizes ∧
    s1.planned_spans_.length = mm.plannedSizes.length := by
  rw [ProgramLoader.loadProgram] at h
  by_cases hinit : s.initialized_
  · rcases hMa : s.method_allocator_ with _ | a
    · simp [hinit, hMa] at h
    · rcases hL : allocPlannedBuffers a [] mm.plannedSizes with ⟨oe, a1, spans⟩
      cases oe with
      | none =>
          simp [hinit, hMa, hL] at h
          have hsz := allocPlannedBuffers_ok_sizes mm.plannedSizes a [] a1 spans hL
          simp at hsz
          have hspans : s1.planned_spans_ = spans := by
            rw [← h]
          rw [hspans, hsz]
          exact ⟨rfl, by rw [← hsz, List.length_map]⟩
      | some e =>
          have he : e = Error.MemoryAllocationFailed :=
            allocPlannedBuffers_err mm.plannedSizes a [] e a1 spans hL
          subst he
          simp [hinit, hMa, hL] at h
  · simp [hinit] at h

theorem C10_loadProgram_planned_spans_witness :
    ( ProgramLoader.loadProgram addModelMeta loadedLoader).1 = Error.Ok ∧
    List.map Prod.snd
        ( ProgramLoader.loadProgram addModelMeta loadedLoader).2.planned_spans_ =
      addModelMeta.plannedSizes ∧
    ( ProgramLoader.loadProgram addModelMeta loadedLoader).2.planned_spans_.length =
      addModelMeta.plannedSizes.length :=
  ⟨by decide,
    (C10_loadProgram_planned_spans addModelMeta loadedLoader
      ( ProgramLoader.loadProgram addModelMeta loadedLoader).2 (by decide)).1,
    (C10_loadProgram_planned_spans addModelMeta loadedLoader
      ( ProgramLoader.loadProgram addModelMeta loadedLoader).2 (by decide)).2⟩
